import Mathlib

/-!
Shallow embedding of the `go-logger` package (files `logger.go`, `recover.go`).

The package wraps Uber's zap logger.  Its process-wide mutable state is the
triple of package-level variables `logger`, `correlationIdContextKey`,
`correlationIdFieldKey`; stateful functions are modelled as explicit
transformers of a `LoggerState`.  Records emitted during `Init`, the number of
spawned HTTP listeners and the number of backend constructions
(`zapConfig.Build()` calls) are tracked as observable effects in the state.

Go `panic` is modelled as `Except.error` (for the accessors) and as a
dedicated outcome constructor (for `PanicLogger`).  Zap internals are modelled
only as far as the package configures them: a `zap.Config` value with the
fields the source sets, and handles carrying their accumulated structured
fields (zap's `With` appends fields to the logger's context).
-/

namespace GoLogger

/-- zap log severities (zapcore levels). -/
inductive Level where
  | debug
  | info
  | warn
  | error
  | dpanic
  | panicLevel
  | fatal
deriving DecidableEq, Repr

/-- Caller encoders used by the source: `zapcore.FullCallerEncoder` and
`zapcore.ShortCallerEncoder`. -/
inductive CallerEncoder where
  | full
  | short
deriving DecidableEq, Repr

/-- Level encoder used by the source: `zapcore.LowercaseLevelEncoder`. -/
inductive LevelEncoder where
  | lowercase
deriving DecidableEq, Repr

/-- Time encoder used by the source: `zapcore.RFC3339TimeEncoder`. -/
inductive TimeEncoder where
  | rfc3339
deriving DecidableEq, Repr

/-- Duration encoder used by the source: `zapcore.MillisDurationEncoder`. -/
inductive DurationEncoder where
  | millis
deriving DecidableEq, Repr

/-- `zapcore.OmitKey`: the empty string, meaning the key is omitted from the
encoded output. -/
def OmitKey : String := ""

/-- `zapcore.DefaultLineEnding`. -/
def DefaultLineEnding : String := "\n"

/-- The subset of `zapcore.EncoderConfig` the source sets. -/
structure EncoderConfig where
  TimeKey : String
  LevelKey : String
  NameKey : String
  CallerKey : String
  FunctionKey : String
  MessageKey : String
  StacktraceKey : String
  LineEnding : String
  EncodeLevel : LevelEncoder
  EncodeTime : TimeEncoder
  EncodeDuration : DurationEncoder
  EncodeCaller : CallerEncoder
deriving DecidableEq, Repr

/-- `zap.SamplingConfig` (only the two fields the source sets). -/
structure SamplingConfig where
  Initial : Nat
  Thereafter : Nat
deriving DecidableEq, Repr

/-- Values carried by the zap fields the source constructs:
`zap.Stringp` (a string) and `zap.Strings` (a string slice). -/
inductive FieldValue where
  | str : String → FieldValue
  | strs : List String → FieldValue
deriving DecidableEq, Repr

/-- The subset of `zap.Config` the source sets (the atomic level is modelled
by the level it is created at). -/
structure ZapConfig where
  Level : GoLogger.Level
  Development : Bool
  DisableCaller : Bool
  DisableStacktrace : Bool
  Sampling : Option SamplingConfig
  Encoding : String
  EncoderConfig : GoLogger.EncoderConfig
  OutputPaths : List String
  ErrorOutputPaths : List String
  InitialFields : Option (List (String × FieldValue))
deriving DecidableEq, Repr

/-- `CLogger` wraps `zap.Logger`: the configuration it was built from and the
structured fields accumulated onto it by `With`. -/
structure CLogger where
  config : ZapConfig
  fields : List (String × FieldValue)
deriving DecidableEq, Repr

/-- `CSugaredLogger` wraps `zap.SugaredLogger`: same backing state as the
structured logger it was derived from. -/
structure CSugaredLogger where
  config : ZapConfig
  fields : List (String × FieldValue)
deriving DecidableEq, Repr

/-- A structured log record: severity, message, attached fields. -/
structure Record where
  level : GoLogger.Level
  msg : String
  fields : List (String × FieldValue)
deriving DecidableEq, Repr

/-- A Go `interface{}` value as far as the package inspects one (the type
switch in `WithCorrelationId` only distinguishes `string` from the rest). -/
inductive GoValue where
  | str : String → GoValue
  | boolean : Bool → GoValue
  | intVal : Int → GoValue
  | nil : GoValue
deriving DecidableEq, Repr

/-- `func (l *CLogger) With(args ...zap.Field) *CLogger`: zap's `With`
appends the fields to the logger's context and returns a child logger;
the receiver is not modified. -/
def CLogger.With (l : CLogger) (args : List (String × FieldValue)) : CLogger :=
  { l with fields := l.fields ++ args }

/-- `func (l *CSugaredLogger) With(args ...interface{}) *CSugaredLogger`:
the variadic key/value arguments are modelled as key/value pairs. -/
def CSugaredLogger.With (l : CSugaredLogger) (args : List (String × FieldValue)) :
    CSugaredLogger :=
  { l with fields := l.fields ++ args }

/-- `zap.Logger.Sugar()`: same backing core, sugared front end. -/
def CLogger.Sugar (l : CLogger) : CSugaredLogger :=
  { config := l.config, fields := l.fields }

/-- `func (l *CLogger) WithCorrelationId(correlationId interface{}) *CLogger`
(recover.go lines 56-61).  The Go method reads the package variable
`correlationIdFieldKey`; it is passed here explicitly. -/
def CLogger.WithCorrelationId (l : CLogger) (correlationIdFieldKey : String)
    (correlationId : GoValue) : CLogger :=
  match correlationId with
  | GoValue.str s => l.With [(correlationIdFieldKey, FieldValue.str s)]
  | _ => l

/-- `func (l *CSugaredLogger) WithCorrelationId(correlationId interface{})
*CSugaredLogger` (recover.go lines 64-69). -/
def CSugaredLogger.WithCorrelationId (l : CSugaredLogger)
    (correlationIdFieldKey : String) (correlationId : GoValue) : CSugaredLogger :=
  match correlationId with
  | GoValue.str s => l.With [(correlationIdFieldKey, FieldValue.str s)]
  | _ => l

/-- The package-level mutable state together with its observable effects:
`logger`, `correlationIdContextKey`, `correlationIdFieldKey` are the three
package variables; `emitted` collects records written by the package itself,
`httpListeners` counts goroutines spawned to serve `/loglevel`, and `builds`
counts `zapConfig.Build()` calls. -/
structure LoggerState where
  logger : Option CLogger
  correlationIdContextKey : String
  correlationIdFieldKey : String
  emitted : List Record
  httpListeners : Nat
  builds : Nat
deriving DecidableEq, Repr

/-- Go zero values of the package variables at process start: a nil logger
and empty key strings. -/
def initialState : LoggerState :=
  { logger := none
    correlationIdContextKey := ""
    correlationIdFieldKey := ""
    emitted := []
    httpListeners := 0
    builds := 0 }

/-- `func SugaredLogger() *CSugaredLogger`: panics when the package logger is
nil, otherwise returns a sugared wrapper of it.  The Go `panic` is modelled
as `Except.error` of the panic message. -/
def SugaredLogger (s : LoggerState) : Except String CSugaredLogger :=
  match s.logger with
  | none => Except.error "logger not initialized. Call Init(ctx)"
  | some l => Except.ok l.Sugar

/-- `func Logger() *CLogger`: panics when the package logger is nil,
otherwise returns it. -/
def Logger (s : LoggerState) : Except String CLogger :=
  match s.logger with
  | none => Except.error "logger not initialized. Call Init(ctx)"
  | some l => Except.ok l

/-- `func SetCorrelationIdFieldKey(key string)`: empty key is ignored. -/
def SetCorrelationIdFieldKey (s : LoggerState) (key : String) : LoggerState :=
  if key = "" then s
  else { s with correlationIdFieldKey := key }

/-- `func SetCorrelationIdContextKey(key string)`: empty key is ignored. -/
def SetCorrelationIdContextKey (s : LoggerState) (key : String) : LoggerState :=
  if key = "" then s
  else { s with correlationIdContextKey := key }

/-- The `zapcore.EncoderConfig` literal built by `Init` when
`developmentMode` holds (recover.go lines 142-155). -/
def devEncoderConfig : EncoderConfig :=
  { TimeKey := "ts"
    LevelKey := "level"
    NameKey := "logger"
    CallerKey := "caller"
    FunctionKey := "func"
    MessageKey := "msg"
    StacktraceKey := "stacktrace"
    LineEnding := DefaultLineEnding
    EncodeLevel := LevelEncoder.lowercase
    EncodeTime := TimeEncoder.rfc3339
    EncodeDuration := DurationEncoder.millis
    EncodeCaller := CallerEncoder.full }

/-- The `zap.Config` literal built by `Init` when `developmentMode` holds
(recover.go lines 156-167). -/
def devZapConfig : ZapConfig :=
  { Level := Level.debug
    Development := true
    DisableCaller := false
    DisableStacktrace := false
    Sampling := none
    Encoding := "json"
    EncoderConfig := devEncoderConfig
    OutputPaths := ["stdout"]
    ErrorOutputPaths := ["stdout"]
    InitialFields := none }

/-- The `zapcore.EncoderConfig` literal built by `Init` in production mode
(recover.go lines 171-184). -/
def prodEncoderConfig : EncoderConfig :=
  { TimeKey := "ts"
    LevelKey := "level"
    NameKey := "logger"
    CallerKey := "caller"
    FunctionKey := OmitKey
    MessageKey := "msg"
    StacktraceKey := "stacktrace"
    LineEnding := DefaultLineEnding
    EncodeLevel := LevelEncoder.lowercase
    EncodeTime := TimeEncoder.rfc3339
    EncodeDuration := DurationEncoder.millis
    EncodeCaller := CallerEncoder.short }

/-- The `zap.Config` literal built by `Init` in production mode
(recover.go lines 185-196). -/
def prodZapConfig : ZapConfig :=
  { Level := Level.info
    Development := false
    DisableCaller := false
    DisableStacktrace := false
    Sampling := some { Initial := 100, Thereafter := 100 }
    Encoding := "json"
    EncoderConfig := prodEncoderConfig
    OutputPaths := ["stdout"]
    ErrorOutputPaths := ["stdout"]
    InitialFields := none }

/-- `func Init(ctx context.Context, enableLogLevelEndpoint, developmentMode
bool)` (recover.go lines 125-219).  The `ctx` argument is unused by the
source apart from being received.  `zapConfig.Build()` cannot fail for these
configurations ("json" is a registered encoding and "stdout" a valid sink),
so the build always produces a logger and increments the build counter. -/
def Init (s : LoggerState) (enableLogLevelEndpoint developmentMode : Bool) :
    LoggerState :=
  if s.logger.isSome then s
  else
    let s1 : LoggerState :=
      { s with correlationIdContextKey := "correlation_id"
               correlationIdFieldKey := "correlation_id" }
    let loggerMode0 : List String := if developmentMode then ["dev"] else ["prod"]
    let zapConfig : ZapConfig := if developmentMode then devZapConfig else prodZapConfig
    let loggerMode : List String :=
      if enableLogLevelEndpoint then loggerMode0 ++ ["serveHttp"] else loggerMode0
    let s2 : LoggerState :=
      if enableLogLevelEndpoint then { s1 with httpListeners := s1.httpListeners + 1 }
      else s1
    let l : CLogger := { config := zapConfig, fields := [] }
    let s3 : LoggerState := { s2 with builds := s2.builds + 1 }
    let s4 : LoggerState :=
      { s3 with emitted := s3.emitted ++
          [{ level := Level.info
             msg := "Logger initialized successfully"
             fields := [("logger_modes", FieldValue.strs loggerMode)] }] }
    let s5 : LoggerState :=
      if enableLogLevelEndpoint then
        { s4 with emitted := s4.emitted ++
            [{ level := Level.info
               msg := "Logger HTTP Server active on :53835/loglevel"
               fields := [] }] }
      else s4
    { s5 with logger := some l }

/-- Outcome of a call to `PanicLogger`: return normally, terminate the
process via a Fatal-severity record (no panic propagates past it), or itself
panic (which happens only when `SugaredLogger` panics). -/
inductive PanicLoggerOutcome where
  | normalReturn : PanicLoggerOutcome
  | fatalExit : Record → PanicLoggerOutcome
  | abort : String → PanicLoggerOutcome
deriving DecidableEq, Repr

/-- `func PanicLogger()` (recover.go lines 14-19).  `recovered` is the value
`recover()` yields (none when no panic is in flight, rendered as a string as
`Fatalf`'s `%s` verb would); `stack` is `string(debug.Stack())`. -/
def PanicLogger (s : LoggerState) (recovered : Option String) (stack : String) :
    PanicLoggerOutcome :=
  match recovered with
  | none => PanicLoggerOutcome.normalReturn
  | some r =>
    match SugaredLogger s with
    | Except.error m => PanicLoggerOutcome.abort m
    | Except.ok sl =>
      let log := sl.With [("op", FieldValue.str "panic_logger")]
      PanicLoggerOutcome.fatalExit
        { level := Level.fatal
          msg := "panic: " ++ r ++ " stack: " ++ stack
          fields := log.fields }

/-- Last-write-wins lookup of a key in an accumulated field list: the value
of the latest binding of the key, as a JSON consumer reading duplicate keys
last-value-wins would see it. -/
def fieldLookup : List (String × FieldValue) → String → Option FieldValue
  | [], _ => none
  | f :: fs, k =>
    match fieldLookup fs k with
    | some v => some v
    | none => if f.1 = k then some f.2 else none

/-- A sequence of `With` calls on a structured handle. -/
def withSeq (l : CLogger) (argss : List (List (String × FieldValue))) : CLogger :=
  argss.foldl CLogger.With l

/-- The informational record `Init` emits on success (recover.go line 213). -/
def initRecord (e d : Bool) : Record :=
  { level := Level.info
    msg := "Logger initialized successfully"
    fields := [("logger_modes",
      FieldValue.strs ((if d then ["dev"] else ["prod"]) ++
        if e then ["serveHttp"] else []))] }

/-- The extra informational record `Init` emits when the level endpoint is
enabled (recover.go line 215). -/
def httpRecord : Record :=
  { level := Level.info
    msg := "Logger HTTP Server active on :53835/loglevel"
    fields := [] }

/-- Characterisation of `Init` from an uninitialised state. -/
theorem Init_eq_of_none (s : LoggerState) (h : s.logger = none) (e d : Bool) :
    Init s e d =
      { logger := some { config := if d then devZapConfig else prodZapConfig
                         fields := [] }
        correlationIdContextKey := "correlation_id"
        correlationIdFieldKey := "correlation_id"
        emitted := s.emitted ++ [initRecord e d] ++ (if e then [httpRecord] else [])
        httpListeners := s.httpListeners + (if e then 1 else 0)
        builds := s.builds + 1 } := by
  cases e <;> cases d <;> simp [Init, h, initRecord, httpRecord]

/-- A logger handle used to instantiate theorems about an initialised state. -/
def witnessLogger : CLogger := { config := prodZapConfig, fields := [] }

/-- A state in which `Init` has already succeeded. -/
def readyState : LoggerState :=
  { logger := some witnessLogger
    correlationIdContextKey := "correlation_id"
    correlationIdFieldKey := "correlation_id"
    emitted := []
    httpListeners := 0
    builds := 1 }

/-- C1: Init is idempotent — when the package logger is already non-nil,
`Init` returns at once and no package state changes: no second backend
construction, no second "initialized" record, no second HTTP listener. -/
theorem Init_idempotent (s : LoggerState) (l : CLogger) (h : s.logger = some l)
    (e d : Bool) : Init s e d = s := by
  simp [Init, h]

/-- Witness for C1 at a concrete initialised state and both flag values. -/
theorem Init_idempotent_witness :
    Init readyState true true = readyState ∧
    Init readyState false false = readyState :=
  ⟨Init_idempotent readyState witnessLogger rfl true true,
   Init_idempotent readyState witnessLogger rfl false false⟩

/-- C2: `WithCorrelationId` on either handle type appends the correlation
field when the argument's dynamic type is string, and returns the receiver
unchanged for every non-string argument (including nil). -/
theorem WithCorrelationId_string_or_noop (key : String) (l : CLogger)
    (sl : CSugaredLogger) (v : GoValue) :
    (∀ str, v = GoValue.str str →
      l.WithCorrelationId key v =
        { l with fields := l.fields ++ [(key, FieldValue.str str)] } ∧
      sl.WithCorrelationId key v =
        { sl with fields := sl.fields ++ [(key, FieldValue.str str)] }) ∧
    ((∀ str, v ≠ GoValue.str str) →
      l.WithCorrelationId key v = l ∧ sl.WithCorrelationId key v = sl) := by
  constructor
  · rintro str rfl
    exact ⟨rfl, rfl⟩
  · intro hv
    cases v with
    | str s => exact absurd rfl (hv s)
    | boolean b => exact ⟨rfl, rfl⟩
    | intVal n => exact ⟨rfl, rfl⟩
    | nil => exact ⟨rfl, rfl⟩

/-- Witness for C2: a string argument appends the field, a nil argument is a
no-op, at concrete handles. -/
theorem WithCorrelationId_string_or_noop_witness :
    CLogger.WithCorrelationId { config := prodZapConfig, fields := [] }
        "correlation_id" (GoValue.str "abc") =
      { config := prodZapConfig
        fields := [("correlation_id", FieldValue.str "abc")] } ∧
    CLogger.WithCorrelationId { config := prodZapConfig, fields := [] }
        "correlation_id" GoValue.nil =
      { config := prodZapConfig, fields := [] } :=
  ⟨((WithCorrelationId_string_or_noop "correlation_id"
      { config := prodZapConfig, fields := [] }
      { config := prodZapConfig, fields := [] } (GoValue.str "abc")).1 "abc" rfl).1,
   ((WithCorrelationId_string_or_noop "correlation_id"
      { config := prodZapConfig, fields := [] }
      { config := prodZapConfig, fields := [] } GoValue.nil).2
      (fun _ h => GoValue.noConfusion h)).1⟩

/-- C3: both accessors panic (modelled as `Except.error` of the panic
message) exactly when the package logger is nil, and return a handle without
failing once `Init` has succeeded. -/
theorem accessors_require_Init (s : LoggerState) :
    (s.logger = none →
      SugaredLogger s = Except.error "logger not initialized. Call Init(ctx)" ∧
      Logger s = Except.error "logger not initialized. Call Init(ctx)") ∧
    (∀ l, s.logger = some l →
      SugaredLogger s = Except.ok l.Sugar ∧ Logger s = Except.ok l) := by
  constructor
  · intro h
    rw [SugaredLogger, Logger, h]
    exact ⟨rfl, rfl⟩
  · intro l h
    rw [SugaredLogger, Logger, h]
    exact ⟨rfl, rfl⟩

/-- Witness for C3 at the uninitialised start state and at an initialised
state. -/
theorem accessors_require_Init_witness :
    (SugaredLogger initialState =
        Except.error "logger not initialized. Call Init(ctx)" ∧
      Logger initialState =
        Except.error "logger not initialized. Call Init(ctx)") ∧
    (SugaredLogger readyState = Except.ok witnessLogger.Sugar ∧
      Logger readyState = Except.ok witnessLogger) :=
  ⟨(accessors_require_Init initialState).1 rfl,
   (accessors_require_Init readyState).2 witnessLogger rfl⟩

/-- C4 counterexample: in both modes the configuration built by `Init`
routes logger-internal errors to `"stdout"`, not to `"stderr"` as the claim
states (the source sets `ErrorOutputPaths: []string{"stdout"}` in both
branches). -/
theorem Init_errorOutput_counterexample :
    ((Init initialState false true).logger.map fun l => l.config.ErrorOutputPaths) =
        some ["stdout"] ∧
    ((Init initialState false false).logger.map fun l => l.config.ErrorOutputPaths) =
        some ["stdout"] ∧
    ¬ (((Init initialState false true).logger.map fun l => l.config.ErrorOutputPaths) =
        some ["stderr"]) ∧
    ¬ (((Init initialState false false).logger.map fun l => l.config.ErrorOutputPaths) =
        some ["stderr"]) := by
  refine ⟨rfl, rfl, ?_, ?_⟩ <;> decide

/-- C4 (amended): in both modes `Init` builds a JSON backend whose ordinary
output paths and whose internal-error output paths are both the process's
standard output stream. -/
theorem Init_output_paths (s : LoggerState) (h : s.logger = none) (e d : Bool) :
    ∃ l, (Init s e d).logger = some l ∧
      l.config.OutputPaths = ["stdout"] ∧
      l.config.ErrorOutputPaths = ["stdout"] ∧
      l.config.Encoding = "json" := by
  refine ⟨{ config := if d then devZapConfig else prodZapConfig, fields := [] },
    ?_, ?_, ?_, ?_⟩
  · rw [Init_eq_of_none s h e d]
  all_goals cases d <;> rfl

/-- Witness for C4's amended theorem at the concrete start state. -/
theorem Init_output_paths_witness :
    ∃ l, (Init initialState true false).logger = some l ∧
      l.config.OutputPaths = ["stdout"] ∧
      l.config.ErrorOutputPaths = ["stdout"] ∧
      l.config.Encoding = "json" :=
  Init_output_paths initialState rfl true false

/-- C5: development mode selects the Debug threshold, function-name key
`"func"`, the full caller encoder and no sampling; production mode selects
the Info threshold, omits the function-name key, uses the short caller
encoder and samples with Initial = 100, Thereafter = 100. -/
theorem Init_mode_selection (s : LoggerState) (h : s.logger = none) (e : Bool) :
    (∃ l, (Init s e true).logger = some l ∧
      l.config.Level = Level.debug ∧
      l.config.EncoderConfig.FunctionKey = "func" ∧
      l.config.EncoderConfig.EncodeCaller = CallerEncoder.full ∧
      l.config.Sampling = none) ∧
    (∃ l, (Init s e false).logger = some l ∧
      l.config.Level = Level.info ∧
      l.config.EncoderConfig.FunctionKey = OmitKey ∧
      l.config.EncoderConfig.EncodeCaller = CallerEncoder.short ∧
      l.config.Sampling = some { Initial := 100, Thereafter := 100 }) := by
  constructor
  · exact ⟨_, by rw [Init_eq_of_none s h e true], rfl, rfl, rfl, rfl⟩
  · exact ⟨_, by rw [Init_eq_of_none s h e false], rfl, rfl, rfl, rfl⟩

/-- Witness for C5 at the concrete start state. -/
theorem Init_mode_selection_witness :
    (∃ l, (Init initialState false true).logger = some l ∧
      l.config.Level = Level.debug ∧
      l.config.EncoderConfig.FunctionKey = "func" ∧
      l.config.EncoderConfig.EncodeCaller = CallerEncoder.full ∧
      l.config.Sampling = none) ∧
    (∃ l, (Init initialState false false).logger = some l ∧
      l.config.Level = Level.info ∧
      l.config.EncoderConfig.FunctionKey = OmitKey ∧
      l.config.EncoderConfig.EncodeCaller = CallerEncoder.short ∧
      l.config.Sampling = some { Initial := 100, Thereafter := 100 }) :=
  Init_mode_selection initialState rfl false

/-- C6 counterexample: with the level endpoint enabled, a successful `Init`
emits two informational records (the "initialized" record and the HTTP
server announcement), not exactly one as the claim states. -/
theorem Init_info_count_counterexample :
    ((Init initialState true false).emitted.filter
        fun r => r.level == Level.info).length = 2 ∧
    ¬ (((Init initialState true false).emitted.filter
        fun r => r.level == Level.info).length = 1) := by
  refine ⟨rfl, ?_⟩
  decide

/-- C6 (amended): a successful `Init` emits an informational record listing
the active modes (`dev`/`prod` by flag, plus `serveHttp` when the endpoint
is enabled) before returning; when the endpoint is enabled, one further
informational record announcing the HTTP server follows it, and only when
the endpoint is disabled is that modes record the sole record emitted. -/
theorem Init_info_records (s : LoggerState) (h : s.logger = none) (e d : Bool) :
    (Init s e d).emitted =
      s.emitted ++ [initRecord e d] ++ (if e then [httpRecord] else []) ∧
    (initRecord e d).level = Level.info ∧
    (initRecord e d).msg = "Logger initialized successfully" ∧
    (initRecord e d).fields = [("logger_modes",
      FieldValue.strs ((if d then ["dev"] else ["prod"]) ++
        if e then ["serveHttp"] else []))] ∧
    httpRecord.level = Level.info := by
  refine ⟨?_, rfl, rfl, rfl, rfl⟩
  rw [Init_eq_of_none s h e d]

/-- Witness for C6's amended theorem at the concrete start state. -/
theorem Init_info_records_witness :
    (Init initialState false true).emitted =
      initialState.emitted ++ [initRecord false true] ++
        (if false then [httpRecord] else []) ∧
    (initRecord false true).level = Level.info ∧
    (initRecord false true).msg = "Logger initialized successfully" ∧
    (initRecord false true).fields = [("logger_modes",
      FieldValue.strs ((if true then ["dev"] else ["prod"]) ++
        if false then ["serveHttp"] else []))] ∧
    httpRecord.level = Level.info :=
  Init_info_records initialState rfl false true

/-- C7: both key setters ignore the empty string, leaving the previously
configured key in place, and replace the corresponding key (and only it)
when given a non-empty string. -/
theorem SetCorrelationIdKeys_empty_noop (s : LoggerState) (key : String) :
    (SetCorrelationIdFieldKey s "" = s ∧ SetCorrelationIdContextKey s "" = s) ∧
    (key ≠ "" →
      SetCorrelationIdFieldKey s key = { s with correlationIdFieldKey := key } ∧
      SetCorrelationIdContextKey s key =
        { s with correlationIdContextKey := key }) := by
  refine ⟨⟨rfl, rfl⟩, fun hk => ⟨?_, ?_⟩⟩ <;>
    simp [SetCorrelationIdFieldKey, SetCorrelationIdContextKey, hk]

/-- Witness for C7 at the concrete start state with a concrete non-empty
key. -/
theorem SetCorrelationIdKeys_empty_noop_witness :
    (SetCorrelationIdFieldKey initialState "" = initialState ∧
      SetCorrelationIdContextKey initialState "" = initialState) ∧
    SetCorrelationIdFieldKey initialState "request_id" =
      { initialState with correlationIdFieldKey := "request_id" } :=
  ⟨(SetCorrelationIdKeys_empty_noop initialState "request_id").1,
   ((SetCorrelationIdKeys_empty_noop initialState "request_id").2
      (by decide)).1⟩

/-- Fields after a sequence of `With` calls: the receiver's fields followed
by all the attached argument lists, in order. -/
theorem withSeq_fields (l : CLogger) (argss : List (List (String × FieldValue))) :
    (withSeq l argss).fields = l.fields ++ argss.flatten := by
  induction argss generalizing l with
  | nil => simp [withSeq]
  | cons as rest ih =>
    have hstep : withSeq l (as :: rest) = withSeq (l.With as) rest := rfl
    rw [hstep, ih, List.flatten_cons]
    simp [CLogger.With, List.append_assoc]

/-- Last-write-wins lookup over an appended field list: bindings on the
right shadow bindings on the left. -/
theorem fieldLookup_append (a b : List (String × FieldValue)) (k : String) :
    fieldLookup (a ++ b) k =
      match fieldLookup b k with
      | some v => some v
      | none => fieldLookup a k := by
  induction a with
  | nil =>
    rw [List.nil_append]
    cases hb : fieldLookup b k <;> simp [fieldLookup]
  | cons f fs ih =>
    rw [List.cons_append]
    cases hb : fieldLookup b k <;> cases hf : fieldLookup fs k <;>
      simp [fieldLookup, ih, hb, hf]

/-- C8: `With` calls accumulate fields non-destructively — after any
sequence of `With` calls the handle's fields are the receiver's fields
followed by every attached field in order, so every earlier field is still
present; on key collision a last-write-wins lookup sees the latest binding,
and an untouched key still resolves to the receiver's binding. -/
theorem With_accumulates (l : CLogger)
    (argss : List (List (String × FieldValue))) :
    (withSeq l argss).fields = l.fields ++ argss.flatten ∧
    (∀ f, f ∈ argss.flatten → f ∈ (withSeq l argss).fields) ∧
    (∀ args k, fieldLookup ((l.With args).fields) k =
      match fieldLookup args k with
      | some v => some v
      | none => fieldLookup l.fields k) := by
  refine ⟨withSeq_fields l argss, ?_, ?_⟩
  · intro f hf
    rw [withSeq_fields]
    exact List.mem_append_right _ hf
  · intro args k
    exact fieldLookup_append l.fields args k

/-- Witness for C8: a concrete two-call sequence keeps the field attached by
the first call. -/
theorem With_accumulates_witness :
    ("a", FieldValue.str "1") ∈
      (withSeq witnessLogger
        [[("a", FieldValue.str "1")], [("b", FieldValue.str "2")]]).fields :=
  (With_accumulates witnessLogger
      [[("a", FieldValue.str "1")], [("b", FieldValue.str "2")]]).2.1
    ("a", FieldValue.str "1") (by decide)

/-- C9: with an initialised logger, `PanicLogger` is a no-op when no panic
is in flight; with a panic in flight it produces exactly one Fatal record
tagged `op = "panic_logger"` whose message embeds the panic payload and the
(non-empty) stack trace, and the call ends in Fatal termination — the panic
value is not re-raised. -/
theorem PanicLogger_spec (s : LoggerState) (l : CLogger) (h : s.logger = some l)
    (r stack : String) (hs : stack ≠ "") :
    PanicLogger s none stack = PanicLoggerOutcome.normalReturn ∧
    ∃ panicRecord,
      PanicLogger s (some r) stack = PanicLoggerOutcome.fatalExit panicRecord ∧
      panicRecord.level = Level.fatal ∧
      ("op", FieldValue.str "panic_logger") ∈ panicRecord.fields ∧
      panicRecord.msg = "panic: " ++ r ++ " stack: " ++ stack ∧
      stack ≠ "" := by
  refine ⟨rfl,
    ⟨{ level := Level.fatal
       msg := "panic: " ++ r ++ " stack: " ++ stack
       fields := l.fields ++ [("op", FieldValue.str "panic_logger")] },
     ?_, rfl, ?_, rfl, hs⟩⟩
  · simp [PanicLogger, SugaredLogger, h, CLogger.Sugar, CSugaredLogger.With]
  · exact List.mem_append_right _ (List.mem_singleton.mpr rfl)

/-- Witness for C9 at a concrete initialised state, payload and stack. -/
theorem PanicLogger_spec_witness :
    PanicLogger readyState none "trace" = PanicLoggerOutcome.normalReturn ∧
    ∃ panicRecord,
      PanicLogger readyState (some "boom") "trace" =
        PanicLoggerOutcome.fatalExit panicRecord ∧
      panicRecord.level = Level.fatal ∧
      ("op", FieldValue.str "panic_logger") ∈ panicRecord.fields ∧
      panicRecord.msg = "panic: " ++ "boom" ++ " stack: " ++ "trace" ∧
      "trace" ≠ "" :=
  PanicLogger_spec readyState witnessLogger rfl "boom" "trace" (by decide)

/-- Setting the field key never touches the logger handle. -/
theorem SetCorrelationIdFieldKey_logger (s : LoggerState) (k : String) :
    (SetCorrelationIdFieldKey s k).logger = s.logger := by
  unfold SetCorrelationIdFieldKey
  split <;> rfl

/-- Setting the context key never touches the logger handle. -/
theorem SetCorrelationIdContextKey_logger (s : LoggerState) (k : String) :
    (SetCorrelationIdContextKey s k).logger = s.logger := by
  unfold SetCorrelationIdContextKey
  split <;> rfl

/-- C10: the first successful `Init` resets both correlation keys to
`"correlation_id"` regardless of any values installed with the setters
beforehand; a later `Init` call returns early and leaves both keys as they
are. -/
theorem Init_resets_correlation_keys (s : LoggerState) (e d : Bool)
    (k k' : String) :
    (s.logger = none →
      (Init s e d).correlationIdFieldKey = "correlation_id" ∧
      (Init s e d).correlationIdContextKey = "correlation_id" ∧
      (Init (SetCorrelationIdFieldKey (SetCorrelationIdContextKey s k') k)
          e d).correlationIdFieldKey = "correlation_id" ∧
      (Init (SetCorrelationIdFieldKey (SetCorrelationIdContextKey s k') k)
          e d).correlationIdContextKey = "correlation_id") ∧
    (∀ l, s.logger = some l →
      (Init s e d).correlationIdFieldKey = s.correlationIdFieldKey ∧
      (Init s e d).correlationIdContextKey = s.correlationIdContextKey) := by
  constructor
  · intro h
    have hlog : (SetCorrelationIdFieldKey
        (SetCorrelationIdContextKey s k') k).logger = none := by
      rw [SetCorrelationIdFieldKey_logger, SetCorrelationIdContextKey_logger]
      exact h
    rw [Init_eq_of_none s h e d, Init_eq_of_none _ hlog e d]
    exact ⟨rfl, rfl, rfl, rfl⟩
  · intro l h
    have heq : Init s e d = s := by simp [Init, h]
    rw [heq]
    exact ⟨rfl, rfl⟩

/-- Witness for C10 at concrete states: keys installed before the first
`Init` are overwritten with the default, and a second `Init` preserves the
current keys. -/
theorem Init_resets_correlation_keys_witness :
    ((Init initialState false false).correlationIdFieldKey =
        "correlation_id" ∧
      (Init initialState false false).correlationIdContextKey =
        "correlation_id" ∧
      (Init (SetCorrelationIdFieldKey
          (SetCorrelationIdContextKey initialState "y") "x")
          false false).correlationIdFieldKey = "correlation_id" ∧
      (Init (SetCorrelationIdFieldKey
          (SetCorrelationIdContextKey initialState "y") "x")
          false false).correlationIdContextKey = "correlation_id") ∧
    ((Init readyState false false).correlationIdFieldKey =
        readyState.correlationIdFieldKey ∧
      (Init readyState false false).correlationIdContextKey =
        readyState.correlationIdContextKey) :=
  ⟨(Init_resets_correlation_keys initialState false false "x" "y").1 rfl,
   (Init_resets_correlation_keys readyState false false "x" "y").2
      witnessLogger rfl⟩

end GoLogger
